import Mathlib

/-!
Verification of the Notification Scheduling and Delivery Engine of the
telegram bot repository (app/services/notification_service.py), against its
natural-language specification.  The Python service is shallowly embedded:
datetimes become a day index plus a second-of-day (both integers), the
SQLAlchemy store becomes an explicit record of lists, the bot delivery call
and the prayer-time fetch become oracle functions supplied as parameters,
and Python exceptions around the delivery call become an explicit result
value.  Function and field names follow the source.
-/

namespace NotifBot

/-- A point in time: a calendar day index and a second within that day.
Models a Python datetime at whole-second resolution. -/
structure DateTime where
  day : Int
  secondOfDay : Int
deriving DecidableEq, Repr

/-- Seconds from time b to time a, models (a - b).total_seconds(). -/
def totalSeconds (a b : DateTime) : Int :=
  (a.day - b.day) * 86400 + (a.secondOfDay - b.secondOfDay)

/-- Models the source expression int(time_diff.total_seconds() / 60):
float division then truncation toward zero, which on whole seconds is
integer truncating division. -/
def minutesUntil (event_time now : DateTime) : Int :=
  Int.tdiv (totalSeconds event_time now) 60

/-- User row (the fields the engine reads or writes). -/
structure User where
  id : String
  prayer_region : Option String
  notifications_enabled : Bool
  prayer_notifications_enabled : Bool
  blocked_bot : Bool
  blocked_at : Option DateTime
deriving DecidableEq, Repr

/-- Task row (the fields the engine reads or writes). -/
structure Task where
  id : Nat
  user_id : String
  completed : Bool
  due_date : Option DateTime
  notification_1day_sent : Bool
  notification_1hour_sent : Bool
  notification_15min_sent : Bool
  notification_due_sent : Bool
deriving DecidableEq, Repr

/-- Row of the prayer_notifications table; the date column is the day
index of the sweep time (isoformat of the date in the source). -/
structure PrayerNotification where
  user_id : String
  date : Int
  prayer_name : String
  notification_type : String
deriving DecidableEq, Repr

/-- The persistent store as seen by the engine. -/
structure Db where
  users : List User
  tasks : List Task
  prayer_notifications : List PrayerNotification
deriving DecidableEq, Repr

/-- One notification interval configuration entry. -/
structure IntervalCfg where
  id : String
  name : String
  minutes : Int
deriving DecidableEq, Repr

/-- self.task_intervals from the service constructor. -/
def task_intervals : List IntervalCfg :=
  [⟨"1day", "1 kun oldin", 24 * 60⟩,
   ⟨"1hour", "1 soat oldin", 60⟩,
   ⟨"15min", "15 daqiqa oldin", 15⟩,
   ⟨"due", "Vaqti keldi", 0⟩]

/-- self.prayer_intervals from the service constructor. -/
def prayer_intervals : List IntervalCfg :=
  [⟨"15min", "15 daqiqa oldin", 15⟩,
   ⟨"5min", "5 daqiqa oldin", 5⟩]

/-- Models getattr(task, "notification_{id}_sent", False). -/
def taskNotificationFlag (task : Task) (intervalId : String) : Bool :=
  if intervalId = "1day" then task.notification_1day_sent
  else if intervalId = "1hour" then task.notification_1hour_sent
  else if intervalId = "15min" then task.notification_15min_sent
  else if intervalId = "due" then task.notification_due_sent
  else false

/-- Models setattr(task, "notification_{id}_sent", True) for the four
interval identifiers the engine uses. -/
def setTaskNotificationFlag (task : Task) (intervalId : String) : Task :=
  if intervalId = "1day" then { task with notification_1day_sent := true }
  else if intervalId = "1hour" then { task with notification_1hour_sent := true }
  else if intervalId = "15min" then { task with notification_15min_sent := true }
  else if intervalId = "due" then { task with notification_due_sent := true }
  else task

/-- Models _should_send_task_notification: a 5-minute window below the
threshold, then the negated already-sent flag. -/
def should_send_task_notification (task : Task) (interval : IntervalCfg)
    (minutes_until_due : Int) : Bool :=
  let target_minutes := interval.minutes
  let is_time_for_notification :=
    decide (minutes_until_due ≤ target_minutes) &&
    decide (target_minutes - 5 < minutes_until_due)
  if !is_time_for_notification then false
  else !(taskNotificationFlag task interval.id)

/-- Existence query on the prayer_notifications table by the composite
key (user, date, prayer, notification type). -/
def prayerNotificationExists (recs : List PrayerNotification) (userId : String)
    (today : Int) (prayer : String) (ntype : String) : Bool :=
  recs.any (fun r =>
    r.user_id == userId && r.date == today &&
    r.prayer_name == prayer && r.notification_type == ntype)

/-- Models _should_send_prayer_notification: a 2-minute window below the
threshold, then absence of a matching record for today. -/
def should_send_prayer_notification (db : Db) (user : User) (prayer : String)
    (interval : IntervalCfg) (minutes_until_prayer : Int) (today : Int) : Bool :=
  let target_minutes := interval.minutes
  let is_time_for_notification :=
    decide (minutes_until_prayer ≤ target_minutes) &&
    decide (target_minutes - 2 < minutes_until_prayer)
  if !is_time_for_notification then false
  else !(prayerNotificationExists db.prayer_notifications user.id today prayer interval.id)

/-- Does the character list sub occur at the head of s. -/
def charsStartWith : List Char → List Char → Bool
  | _, [] => true
  | [], _ :: _ => false
  | c :: cs, d :: ds => c == d && charsStartWith cs ds

/-- Does the character list sub occur anywhere inside s (Python in). -/
def charsContain (sub : List Char) : List Char → Bool
  | [] => charsStartWith [] sub
  | c :: cs => charsStartWith (c :: cs) sub || charsContain sub cs

/-- Substring test on strings, models the Python expression sub in hay. -/
def strContains (hay sub : String) : Bool :=
  charsContain sub.data hay.data

/-- ASCII lower-casing of one character, models str.lower per character
for the ASCII range the indicator phrases use. -/
def lowerChar (c : Char) : Char :=
  if 65 ≤ c.toNat ∧ c.toNat ≤ 90 then Char.ofNat (c.toNat + 32) else c

/-- Models str.lower on the error text. -/
def strToLower (s : String) : String := ⟨s.data.map lowerChar⟩

/-- The blocked_indicators list of _is_user_blocked_error. -/
def blocked_indicators : List String :=
  ["bot was blocked by the user",
   "user is deactivated",
   "chat not found",
   "bot is not a member"]

/-- Models _is_user_blocked_error: lower-case the error text and look for
any of the indicator phrases. -/
def is_user_blocked_error (errorMessage : String) : Bool :=
  blocked_indicators.any (fun indicator => strContains (strToLower errorMessage) indicator)

/-- Outcome of one bot.send_message call: normal return or a raised
exception carrying its message text. -/
inductive SendResult where
  | ok : SendResult
  | err : String → SendResult
deriving DecidableEq, Repr

/-- Delivery oracle for task notifications: chat id, task id, interval id. -/
def TaskDeliver : Type := String → Nat → String → SendResult

/-- Delivery oracle for prayer notifications: chat id, prayer, interval id. -/
def PrayerDeliver : Type := String → String → String → SendResult

/-- Delivery oracle that always succeeds. -/
def okTaskDeliver : TaskDeliver := fun _ _ _ => SendResult.ok

/-- Prayer delivery oracle that always succeeds. -/
def okPrayerDeliver : PrayerDeliver := fun _ _ _ => SendResult.ok

/-- The message of the InvalidRequestError that session.add raises when
the object handed to it is still attached to another session. -/
def already_attached_error : String :=
  "Object is already attached to session"

/-- Models _mark_task_notification_sent as it actually executes: the
setattr mutates the in-memory task object, but session.add(task) then
raises InvalidRequestError, because the task is still attached to the
open query session of _check_task_notifications while this helper opened
a second session from the same factory.  The commit is never reached, so
the store is unchanged; the raised message is returned alongside the
mutated in-memory task and propagates to the caller. -/
def mark_task_notification_sent (db : Db) (task : Task) (interval : IntervalCfg) :
    Db × Task × String :=
  let task₁ := setTaskNotificationFlag task interval.id
  (db, task₁, already_attached_error)

/-- Models _record_prayer_notification: insert one row. -/
def record_prayer_notification (db : Db) (userId : String) (date : Int)
    (prayer : String) (ntype : String) : Db :=
  { db with prayer_notifications :=
      db.prayer_notifications ++ [⟨userId, date, prayer, ntype⟩] }

/-- Models _mark_user_as_blocked: look the user up by id and, when found,
set blocked_bot, record the time and force both toggles off. -/
def mark_user_as_blocked (db : Db) (now : DateTime) (userId : String) : Db :=
  { db with users :=
      db.users.map (fun u =>
        if u.id == userId then
          { u with blocked_bot := true, blocked_at := some now,
                   notifications_enabled := false,
                   prayer_notifications_enabled := false }
        else u) }

/-- Body of the per-interval loop of _check_task_notifications: decide,
attempt delivery inside the try block, and on delivery success call the
flag-mark, which itself raises inside the same try block, so the counter
increment after it is skipped and the except branch classifies the raised
message; a raised delivery error is classified the same way. -/
def taskIntervalStep (deliver : TaskDeliver) (now : DateTime) (user : User)
    (interval : IntervalCfg) (minutes_until_due : Int)
    (st : Db × Task × Nat) : Db × Task × Nat :=
  let (db, task, count) := st
  if should_send_task_notification task interval minutes_until_due then
    match deliver user.id task.id interval.id with
    | SendResult.ok =>
      let (db₁, task₁, raised) := mark_task_notification_sent db task interval
      if is_user_blocked_error raised then
        (mark_user_as_blocked db₁ now user.id, task₁, count)
      else
        (db₁, task₁, count)
    | SendResult.err msg =>
      if is_user_blocked_error msg then
        (mark_user_as_blocked db now user.id, task, count)
      else
        (db, task, count)
  else (db, task, count)

/-- The per-interval loop over the configured task intervals. -/
def taskIntervalLoop (deliver : TaskDeliver) (now : DateTime) (user : User)
    (minutes_until_due : Int) :
    List IntervalCfg → Db × Task × Nat → Db × Task × Nat
  | [], st => st
  | interval :: rest, st =>
      taskIntervalLoop deliver now user minutes_until_due rest
        (taskIntervalStep deliver now user interval minutes_until_due st)

/-- Body of the per-task loop of _check_task_notifications: skip a task
with no due date, otherwise compute the minutes left and run the interval
loop. Returns the updated store and the notifications sent for this task. -/
def processTask (deliver : TaskDeliver) (user : User) (now : DateTime)
    (db : Db) (task : Task) : Db × Nat :=
  match task.due_date with
  | none => (db, 0)
  | some due =>
    let minutes_until_due := minutesUntil due now
    let r := taskIntervalLoop deliver now user minutes_until_due task_intervals (db, task, 0)
    (r.1, r.2.2)

/-- The per-task loop, accumulating the sent counter. -/
def taskLoop (deliver : TaskDeliver) (user : User) (now : DateTime) :
    List Task → Db × Nat → Db × Nat
  | [], st => st
  | task :: rest, (db, count) =>
    let r := processTask deliver user now db task
    taskLoop deliver user now rest (r.1, count + r.2)

/-- Models _check_task_notifications: bail out when the toggle is off,
load the incomplete tasks of the user and loop. -/
def check_task_notifications (deliver : TaskDeliver) (user : User)
    (now : DateTime) (db : Db) : Db × Nat :=
  if !user.notifications_enabled then (db, 0)
  else
    let tasks := db.tasks.filter (fun t => t.user_id == user.id && !t.completed)
    taskLoop deliver user now tasks (db, 0)

/-- The five canonical prayer names iterated by the engine. -/
def prayers : List String := ["Fajr", "Dhuhr", "Asr", "Maghrib", "Isha"]

/-- Splits a character list at every colon, models str.split on a colon
(an empty string yields one empty part). -/
def splitOnColon : List Char → List (List Char)
  | [] => [[]]
  | c :: cs =>
    let r := splitOnColon cs
    if c == ':' then [] :: r
    else
      match r with
      | [] => [[c]]
      | p :: ps => (c :: p) :: ps

/-- Accumulates decimal digits, failing on any non-digit character. -/
def parseDigitsAux : List Char → Nat → Option Nat
  | [], acc => some acc
  | c :: cs, acc =>
    if 48 ≤ c.toNat ∧ c.toNat ≤ 57 then
      parseDigitsAux cs (acc * 10 + (c.toNat - 48))
    else none

/-- Models Python int() on a time component: an optional sign followed by
at least one decimal digit, anything else raising ValueError (none). -/
def parseIntChars : List Char → Option Int
  | [] => none
  | '-' :: cs =>
    match cs with
    | [] => none
    | _ :: _ => (parseDigitsAux cs 0).map (fun n => -(n : Int))
  | '+' :: cs =>
    match cs with
    | [] => none
    | _ :: _ => (parseDigitsAux cs 0).map (fun n => (n : Int))
  | cs => (parseDigitsAux cs 0).map (fun n => (n : Int))

/-- Models _parse_prayer_time: split on the colon, convert both parts to
integers and substitute hour and minute into the base date; any failure
(wrong shape, non-numeric, out-of-range replace) yields the base date. -/
def parse_prayer_time (time_str : String) (base_date : DateTime) : DateTime :=
  match splitOnColon time_str.data with
  | [hs, ms] =>
    match parseIntChars hs, parseIntChars ms with
    | some hours, some minutes =>
      if 0 ≤ hours ∧ hours ≤ 23 ∧ 0 ≤ minutes ∧ minutes ≤ 59 then
        { base_date with secondOfDay := hours * 3600 + minutes * 60 }
      else base_date
    | _, _ => base_date
  | _ => base_date

/-- prayer_times.get(prayer) on the fetched mapping. -/
def lookupPrayerTime (prayer_times : List (String × String)) (prayer : String) :
    Option String :=
  match prayer_times.find? (fun p => p.1 == prayer) with
  | some p => some p.2
  | none => none

/-- Result of get_prayer_times: the mapping, or none on any fetch failure
(the prayer service catches its own exceptions and returns None). -/
def PrayerFetch : Type := String → Option (List (String × String))

/-- Python falsiness of an optional region string. -/
def regionFalsy : Option String → Bool
  | none => true
  | some s => s.data.isEmpty

/-- The region value handed to the fetch when the guard passed. -/
def regionStr : Option String → String
  | none => ""
  | some s => s

/-- Body of the per-interval loop of _check_prayer_notifications. -/
def prayerIntervalStep (pdeliver : PrayerDeliver) (now : DateTime) (user : User)
    (prayer : String) (interval : IntervalCfg) (minutes_until_prayer : Int)
    (today : Int) (st : Db × Nat) : Db × Nat :=
  let (db, count) := st
  if should_send_prayer_notification db user prayer interval minutes_until_prayer today then
    match pdeliver user.id prayer interval.id with
    | SendResult.ok =>
      (record_prayer_notification db user.id today prayer interval.id, count + 1)
    | SendResult.err msg =>
      if is_user_blocked_error msg then
        (mark_user_as_blocked db now user.id, count)
      else
        (db, count)
  else (db, count)

/-- The per-interval loop over the configured prayer intervals. -/
def prayerIntervalLoop (pdeliver : PrayerDeliver) (now : DateTime) (user : User)
    (prayer : String) (minutes_until_prayer : Int) (today : Int) :
    List IntervalCfg → Db × Nat → Db × Nat
  | [], st => st
  | interval :: rest, st =>
      prayerIntervalLoop pdeliver now user prayer minutes_until_prayer today rest
        (prayerIntervalStep pdeliver now user prayer interval minutes_until_prayer today st)

/-- The per-prayer loop: skip a prayer whose time string is missing or
empty, otherwise parse it and run the interval loop. -/
def prayerLoop (pdeliver : PrayerDeliver) (now : DateTime) (user : User)
    (today : Int) (prayer_times : List (String × String)) :
    List String → Db × Nat → Db × Nat
  | [], st => st
  | prayer :: rest, st =>
    match lookupPrayerTime prayer_times prayer with
    | none => prayerLoop pdeliver now user today prayer_times rest st
    | some time_str =>
      if time_str.data.isEmpty then prayerLoop pdeliver now user today prayer_times rest st
      else
        let prayer_time := parse_prayer_time time_str now
        let minutes_until_prayer := minutesUntil prayer_time now
        prayerLoop pdeliver now user today prayer_times rest
          (prayerIntervalLoop pdeliver now user prayer minutes_until_prayer today
            prayer_intervals st)

/-- Models _check_prayer_notifications: bail out when the toggle is off or
the region is absent, fetch the prayer times, bail out on a falsy result,
otherwise loop over the five prayers. -/
def check_prayer_notifications (pdeliver : PrayerDeliver) (fetch : PrayerFetch)
    (user : User) (now : DateTime) (db : Db) : Db × Nat :=
  if !user.prayer_notifications_enabled || regionFalsy user.prayer_region then (db, 0)
  else
    let today := now.day
    match fetch (regionStr user.prayer_region) with
    | none => (db, 0)
    | some prayer_times =>
      if prayer_times.isEmpty then (db, 0)
      else prayerLoop pdeliver now user today prayer_times prayers (db, 0)

/-- The per-user body of check_notifications: task check then prayer
check, counts summed. -/
def processUser (deliver : TaskDeliver) (pdeliver : PrayerDeliver)
    (fetch : PrayerFetch) (now : DateTime) (user : User) (db : Db) : Db × Nat :=
  let r₁ := check_task_notifications deliver user now db
  let r₂ := check_prayer_notifications pdeliver fetch user now r₁.1
  (r₂.1, r₁.2 + r₂.2)

/-- The per-user loop of check_notifications. The per-user body may model
an unexpected exception by returning an error value; the first such error
escapes the loop (there is no per-user handler in the source) and carries
the store as committed up to that point. -/
def userLoop (procUser : User → Db → Except String (Db × Nat)) :
    List User → Db × Nat → Db × Nat × Option String
  | [], (db, total) => (db, total, none)
  | user :: rest, (db, total) =>
    match procUser user db with
    | Except.ok (db₁, n) => userLoop procUser rest (db₁, total + n)
    | Except.error e => (db, total, some e)

/-- Models check_notifications: load the users with blocked_bot false,
loop over them inside the single try block; the outer handler turns any
escaped exception into a logged message (the third component). -/
def check_notifications (procUser : User → Db → Except String (Db × Nat))
    (db : Db) : Db × Nat × Option String :=
  let users := db.users.filter (fun u => !u.blocked_bot)
  userLoop procUser users (db, 0)

/-- The per-user body when nothing unexpected is raised. -/
def procUserOk (deliver : TaskDeliver) (pdeliver : PrayerDeliver)
    (fetch : PrayerFetch) (now : DateTime) :
    User → Db → Except String (Db × Nat) :=
  fun user db => Except.ok (processUser deliver pdeliver fetch now user db)

/-- The per-user body under a fault oracle: an unexpected exception at the
start of the processing of a given user (for example the task query
failing), every other user processed normally. -/
def procUserFault (fault : String → Option String) (deliver : TaskDeliver)
    (pdeliver : PrayerDeliver) (fetch : PrayerFetch) (now : DateTime) :
    User → Db → Except String (Db × Nat) :=
  fun user db =>
    match fault user.id with
    | some e => Except.error e
    | none => Except.ok (processUser deliver pdeliver fetch now user db)

/-- The APScheduler handle: the ids of the installed jobs and whether the
scheduler has been started. -/
structure Scheduler where
  jobs : List String
  started : Bool
deriving DecidableEq, Repr

/-- The mutable state of the NotificationService instance. -/
structure ServiceState where
  scheduler : Scheduler
  is_running : Bool
deriving DecidableEq, Repr

/-- Models NotificationService.start: a no-op (with a warning log) when
already running, otherwise install the recurring notification_check job,
start the scheduler and record the running state. -/
def ServiceState.start (s : ServiceState) : ServiceState :=
  if s.is_running then s
  else
    { scheduler := { jobs := s.scheduler.jobs ++ ["notification_check"], started := true },
      is_running := true }

/-- Models NotificationService.stop: a no-op when not running, otherwise
shut the scheduler down (disposing its jobs) and clear the running state. -/
def ServiceState.stop (s : ServiceState) : ServiceState :=
  if !s.is_running then s
  else { scheduler := { jobs := [], started := false }, is_running := false }

/-! Helper predicates and lemmas shared by the claim theorems. -/

/-- Engine evolution order on user rows: the blocked flag is one-way and
disabled toggles stay disabled. -/
def userBlockedLe (u u' : User) : Prop :=
  (u.blocked_bot = true → u'.blocked_bot = true) ∧
  (u.notifications_enabled = false → u'.notifications_enabled = false) ∧
  (u.prayer_notifications_enabled = false → u'.prayer_notifications_enabled = false)

theorem userBlockedLe_refl (u : User) : userBlockedLe u u :=
  ⟨fun h => h, fun h => h, fun h => h⟩

theorem userBlockedLe_trans {a b c : User} (h₁ : userBlockedLe a b)
    (h₂ : userBlockedLe b c) : userBlockedLe a c :=
  ⟨fun h => h₂.1 (h₁.1 h), fun h => h₂.2.1 (h₁.2.1 h), fun h => h₂.2.2 (h₁.2.2 h)⟩

theorem usersLe_refl (l : List User) : List.Forall₂ userBlockedLe l l :=
  List.forall₂_same.2 (fun u _ => userBlockedLe_refl u)

theorem usersLe_trans : ∀ {a b c : List User},
    List.Forall₂ userBlockedLe a b → List.Forall₂ userBlockedLe b c →
    List.Forall₂ userBlockedLe a c := by
  intro a b c h₁
  induction h₁ generalizing c with
  | nil => intro h₂; cases h₂; exact List.Forall₂.nil
  | cons h t ih =>
    intro h₂
    cases h₂ with
    | cons h' t' => exact List.Forall₂.cons (userBlockedLe_trans h h') (ih t')

theorem mark_usersLe (db : Db) (now : DateTime) (uid : String) :
    List.Forall₂ userBlockedLe db.users (mark_user_as_blocked db now uid).users := by
  unfold mark_user_as_blocked
  rw [List.forall₂_map_right_iff]
  refine List.forall₂_same.2 (fun u _ => ?_)
  by_cases h : u.id = uid
  · simp only [h, beq_self_eq_true, if_pos]
    exact ⟨fun _ => rfl, fun _ => rfl, fun _ => rfl⟩
  · have : (u.id == uid) = false := by simp [h]
    simp only [this, Bool.false_eq_true, if_neg, reduceIte]
    exact userBlockedLe_refl u

/-- A task none of whose configured thresholds can fire at the sweep time. -/
def taskDead (now : DateTime) (t : Task) : Prop :=
  ∀ d, t.due_date = some d →
    ∀ itv ∈ task_intervals,
      should_send_task_notification t itv (minutesUntil d now) = false

theorem already_attached_not_blocked :
    is_user_blocked_error already_attached_error = false := by
  decide

theorem taskIntervalStep_effects (deliver : TaskDeliver) (now : DateTime)
    (user : User) (itv : IntervalCfg) (m : Int) (db : Db) (task : Task)
    (count : Nat) :
    List.Forall₂ userBlockedLe db.users
      (taskIntervalStep deliver now user itv m (db, task, count)).1.users ∧
    (taskIntervalStep deliver now user itv m (db, task, count)).1.tasks = db.tasks ∧
    (taskIntervalStep deliver now user itv m
        (db, task, count)).1.prayer_notifications = db.prayer_notifications := by
  by_cases hs : should_send_task_notification task itv m = true
  · cases hd : deliver user.id task.id itv.id with
    | ok =>
      have hstep : taskIntervalStep deliver now user itv m (db, task, count) =
          (db, setTaskNotificationFlag task itv.id, count) := by
        simp [taskIntervalStep, hs, hd, mark_task_notification_sent,
          already_attached_not_blocked]
      rw [hstep]
      exact ⟨usersLe_refl _, rfl, rfl⟩
    | err msg =>
      by_cases hb : is_user_blocked_error msg = true
      · have hstep : taskIntervalStep deliver now user itv m (db, task, count) =
            (mark_user_as_blocked db now user.id, task, count) := by
          simp [taskIntervalStep, hs, hd, hb]
        rw [hstep]
        exact ⟨mark_usersLe db now user.id, rfl, rfl⟩
      · simp only [Bool.not_eq_true] at hb
        have hstep : taskIntervalStep deliver now user itv m (db, task, count) =
            (db, task, count) := by
          simp [taskIntervalStep, hs, hd, hb]
        rw [hstep]
        exact ⟨usersLe_refl _, rfl, rfl⟩
  · simp only [Bool.not_eq_true] at hs
    have hstep : taskIntervalStep deliver now user itv m (db, task, count) =
        (db, task, count) := by
      simp [taskIntervalStep, hs]
    rw [hstep]
    exact ⟨usersLe_refl _, rfl, rfl⟩

theorem taskIntervalLoop_effects (deliver : TaskDeliver) (now : DateTime)
    (user : User) (m : Int) :
    ∀ (L : List IntervalCfg) (db : Db) (task : Task) (count : Nat),
    List.Forall₂ userBlockedLe db.users
      (taskIntervalLoop deliver now user m L (db, task, count)).1.users ∧
    (taskIntervalLoop deliver now user m L (db, task, count)).1.tasks = db.tasks ∧
    (taskIntervalLoop deliver now user m L
        (db, task, count)).1.prayer_notifications = db.prayer_notifications := by
  intro L
  induction L with
  | nil => intro db task count; exact ⟨usersLe_refl _, rfl, rfl⟩
  | cons itv rest ih =>
    intro db task count
    obtain ⟨db₁, task₁, count₁, hstep⟩ :
        ∃ d t c, taskIntervalStep deliver now user itv m (db, task, count) =
          (d, t, c) := ⟨_, _, _, rfl⟩
    have he := taskIntervalStep_effects deliver now user itv m db task count
    rw [hstep] at he
    have hrest := ih db₁ task₁ count₁
    simp only [taskIntervalLoop]
    rw [hstep]
    exact ⟨usersLe_trans he.1 hrest.1, hrest.2.1.trans he.2.1,
      hrest.2.2.trans he.2.2⟩

theorem processTask_effects (deliver : TaskDeliver) (user : User) (now : DateTime)
    (db : Db) (task : Task) :
    List.Forall₂ userBlockedLe db.users
      (processTask deliver user now db task).1.users ∧
    (processTask deliver user now db task).1.tasks = db.tasks ∧
    (processTask deliver user now db task).1.prayer_notifications
      = db.prayer_notifications := by
  cases hd : task.due_date with
  | none =>
    have h : processTask deliver user now db task = (db, 0) := by
      simp [processTask, hd]
    rw [h]
    exact ⟨usersLe_refl _, rfl, rfl⟩
  | some due =>
    have h : (processTask deliver user now db task).1 =
        (taskIntervalLoop deliver now user (minutesUntil due now) task_intervals
          (db, task, 0)).1 := by
      simp [processTask, hd]
    rw [h]
    exact taskIntervalLoop_effects deliver now user (minutesUntil due now)
      task_intervals db task 0

theorem taskLoop_effects (deliver : TaskDeliver) (user : User) (now : DateTime) :
    ∀ (ts : List Task) (db : Db) (count : Nat),
    List.Forall₂ userBlockedLe db.users
      (taskLoop deliver user now ts (db, count)).1.users ∧
    (taskLoop deliver user now ts (db, count)).1.tasks = db.tasks ∧
    (taskLoop deliver user now ts (db, count)).1.prayer_notifications
      = db.prayer_notifications := by
  intro ts
  induction ts with
  | nil => intro db count; exact ⟨usersLe_refl _, rfl, rfl⟩
  | cons t rest ih =>
    intro db count
    obtain ⟨db₁, n, hpt⟩ : ∃ d n, processTask deliver user now db t = (d, n) :=
      ⟨_, _, rfl⟩
    have he := processTask_effects deliver user now db t
    rw [hpt] at he
    have hrest := ih db₁ (count + n)
    simp only [taskLoop]
    rw [hpt]
    exact ⟨usersLe_trans he.1 hrest.1, hrest.2.1.trans he.2.1,
      hrest.2.2.trans he.2.2⟩

theorem taskIntervalLoop_noop (deliver : TaskDeliver) (now : DateTime) (user : User)
    (m : Int) :
    ∀ (L : List IntervalCfg) (db : Db) (task : Task) (count : Nat),
    (∀ itv ∈ L, should_send_task_notification task itv m = false) →
    taskIntervalLoop deliver now user m L (db, task, count) = (db, task, count) := by
  intro L
  induction L with
  | nil => intro db task count _; rfl
  | cons itv rest ih =>
    intro db task count h
    have hh : should_send_task_notification task itv m = false :=
      h itv (List.mem_cons_self itv rest)
    simp only [taskIntervalLoop, taskIntervalStep, hh]
    exact ih db task count (fun i hi => h i (List.mem_cons_of_mem itv hi))

theorem taskLoop_dead_noop (deliver : TaskDeliver) (user : User) (now : DateTime) :
    ∀ (ts : List Task) (db : Db) (count : Nat),
    (∀ t ∈ ts, taskDead now t) →
    taskLoop deliver user now ts (db, count) = (db, count) := by
  intro ts
  induction ts with
  | nil => intro db count _; rfl
  | cons t rest ih =>
    intro db count h
    have hdead := h t (List.mem_cons_self t rest)
    have hrest := fun y hy => h y (List.mem_cons_of_mem t hy)
    cases hd : t.due_date with
    | none =>
      simp only [taskLoop, processTask, hd]
      rw [Nat.add_zero]
      exact ih db count hrest
    | some due =>
      have hnoop := taskIntervalLoop_noop deliver now user (minutesUntil due now)
        task_intervals db t 0 (hdead due hd)
      simp only [taskLoop, processTask, hd]
      rw [hnoop]
      simp only [Nat.add_zero]
      exact ih db count hrest

theorem prayerIntervalStep_usersLe (pdeliver : PrayerDeliver) (now : DateTime)
    (user : User) (prayer : String) (itv : IntervalCfg) (m today : Int)
    (db : Db) (count : Nat) :
    List.Forall₂ userBlockedLe db.users
      (prayerIntervalStep pdeliver now user prayer itv m today (db, count)).1.users := by
  simp only [prayerIntervalStep]
  by_cases hs : should_send_prayer_notification db user prayer itv m today = true
  · simp only [hs, if_pos]
    cases hd : pdeliver user.id prayer itv.id with
    | ok =>
      simp only [record_prayer_notification]
      exact usersLe_refl _
    | err msg =>
      by_cases hb : is_user_blocked_error msg = true
      · simp only [hb, if_pos]
        exact mark_usersLe db now user.id
      · simp only [Bool.not_eq_true] at hb
        simp only [hb, Bool.false_eq_true, if_false]
        exact usersLe_refl _
  · simp only [Bool.not_eq_true] at hs
    simp only [hs, Bool.false_eq_true, if_false]
    exact usersLe_refl _

theorem prayerIntervalLoop_usersLe (pdeliver : PrayerDeliver) (now : DateTime)
    (user : User) (prayer : String) (m today : Int) :
    ∀ (L : List IntervalCfg) (db : Db) (count : Nat),
    List.Forall₂ userBlockedLe db.users
      (prayerIntervalLoop pdeliver now user prayer m today L (db, count)).1.users := by
  intro L
  induction L with
  | nil => intro db count; exact usersLe_refl _
  | cons itv rest ih =>
    intro db count
    simp only [prayerIntervalLoop]
    obtain ⟨db₁, count₁, hstep⟩ :
        ∃ db₁ count₁,
          prayerIntervalStep pdeliver now user prayer itv m today (db, count) =
            (db₁, count₁) :=
      ⟨_, _, rfl⟩
    have h₁ := prayerIntervalStep_usersLe pdeliver now user prayer itv m today db count
    rw [hstep] at h₁ ⊢
    exact usersLe_trans h₁ (ih db₁ count₁)

theorem prayerLoop_usersLe (pdeliver : PrayerDeliver) (now : DateTime)
    (user : User) (today : Int) (prayer_times : List (String × String)) :
    ∀ (ps : List String) (db : Db) (count : Nat),
    List.Forall₂ userBlockedLe db.users
      (prayerLoop pdeliver now user today prayer_times ps (db, count)).1.users := by
  intro ps
  induction ps with
  | nil => intro db count; exact usersLe_refl _
  | cons prayer rest ih =>
    intro db count
    simp only [prayerLoop]
    cases hlk : lookupPrayerTime prayer_times prayer with
    | none => exact ih db count
    | some time_str =>
      by_cases hemp : time_str.data.isEmpty = true
      · simp only [hemp, if_pos]
        exact ih db count
      · simp only [Bool.not_eq_true] at hemp
        simp only [hemp, Bool.false_eq_true, if_false]
        obtain ⟨db₁, count₁, hil⟩ :
            ∃ db₁ count₁,
              prayerIntervalLoop pdeliver now user prayer
                (minutesUntil (parse_prayer_time time_str now) now) today
                prayer_intervals (db, count) = (db₁, count₁) :=
          ⟨_, _, rfl⟩
        have h₁ := prayerIntervalLoop_usersLe pdeliver now user prayer
          (minutesUntil (parse_prayer_time time_str now) now) today
          prayer_intervals db count
        rw [hil] at h₁ ⊢
        exact usersLe_trans h₁ (ih db₁ count₁)

theorem check_prayer_notifications_usersLe (pdeliver : PrayerDeliver)
    (fetch : PrayerFetch) (user : User) (now : DateTime) (db : Db) :
    List.Forall₂ userBlockedLe db.users
      (check_prayer_notifications pdeliver fetch user now db).1.users := by
  simp only [check_prayer_notifications]
  by_cases hg : (!user.prayer_notifications_enabled || regionFalsy user.prayer_region) = true
  · simp only [hg, if_pos]
    exact usersLe_refl _
  · simp only [Bool.not_eq_true] at hg
    simp only [hg, Bool.false_eq_true, if_false]
    cases hf : fetch (regionStr user.prayer_region) with
    | none => exact usersLe_refl _
    | some prayer_times =>
      by_cases hemp : prayer_times.isEmpty = true
      · simp only [hemp, if_pos]
        exact usersLe_refl _
      · simp only [Bool.not_eq_true] at hemp
        simp only [hemp, Bool.false_eq_true, if_false]
        exact prayerLoop_usersLe pdeliver now user now.day prayer_times prayers db 0

theorem taskLoop_usersLe (deliver : TaskDeliver) (user : User) (now : DateTime) :
    ∀ (ts : List Task) (db : Db) (count : Nat),
    List.Forall₂ userBlockedLe db.users
      (taskLoop deliver user now ts (db, count)).1.users :=
  fun ts db count => (taskLoop_effects deliver user now ts db count).1

theorem check_task_notifications_usersLe (deliver : TaskDeliver) (user : User)
    (now : DateTime) (db : Db) :
    List.Forall₂ userBlockedLe db.users
      (check_task_notifications deliver user now db).1.users := by
  simp only [check_task_notifications]
  by_cases hg : (!user.notifications_enabled) = true
  · simp only [hg, if_pos]
    exact usersLe_refl _
  · simp only [Bool.not_eq_true] at hg
    simp only [hg, Bool.not_false, if_true]
    exact taskLoop_usersLe deliver user now _ db 0

theorem processUser_usersLe (deliver : TaskDeliver) (pdeliver : PrayerDeliver)
    (fetch : PrayerFetch) (now : DateTime) (user : User) (db : Db) :
    List.Forall₂ userBlockedLe db.users
      (processUser deliver pdeliver fetch now user db).1.users := by
  simp only [processUser]
  exact usersLe_trans (check_task_notifications_usersLe deliver user now db)
    (check_prayer_notifications_usersLe pdeliver fetch user now
      (check_task_notifications deliver user now db).1)

theorem userLoop_ok_usersLe (deliver : TaskDeliver) (pdeliver : PrayerDeliver)
    (fetch : PrayerFetch) (now : DateTime) :
    ∀ (us : List User) (db : Db) (total : Nat),
    List.Forall₂ userBlockedLe db.users
      (userLoop (procUserOk deliver pdeliver fetch now) us (db, total)).1.users := by
  intro us
  induction us with
  | nil => intro db total; exact usersLe_refl _
  | cons u rest ih =>
    intro db total
    simp only [userLoop, procUserOk]
    obtain ⟨db₁, n, hpu⟩ :
        ∃ db₁ n, processUser deliver pdeliver fetch now u db = (db₁, n) := ⟨_, _, rfl⟩
    have h₁ := processUser_usersLe deliver pdeliver fetch now u db
    rw [hpu] at h₁ ⊢
    exact usersLe_trans h₁ (ih db₁ (total + n))

theorem should_send_task_iff (task : Task) (interval : IntervalCfg) (m : Int) :
    should_send_task_notification task interval m = true ↔
      (taskNotificationFlag task interval.id = false ∧
       interval.minutes - 5 < m ∧ m ≤ interval.minutes) := by
  by_cases h1 : m ≤ interval.minutes <;> by_cases h2 : interval.minutes - 5 < m <;>
    simp [should_send_task_notification, h1, h2]

theorem should_send_prayer_iff (db : Db) (user : User) (prayer : String)
    (interval : IntervalCfg) (m today : Int) :
    should_send_prayer_notification db user prayer interval m today = true ↔
      (prayerNotificationExists db.prayer_notifications user.id today prayer
          interval.id = false ∧
       interval.minutes - 2 < m ∧ m ≤ interval.minutes) := by
  by_cases h1 : m ≤ interval.minutes <;> by_cases h2 : interval.minutes - 2 < m <;>
    simp [should_send_prayer_notification, h1, h2]

/-! Concrete fixtures used by witnesses and counterexamples. -/

/-- A pending task of user u1 due 58 minutes after the fixture sweep time. -/
def sampleTask : Task :=
  { id := 1, user_id := "u1", completed := false,
    due_date := some ⟨0, 3480⟩,
    notification_1day_sent := false, notification_1hour_sent := false,
    notification_15min_sent := false, notification_due_sent := false }

/-- An active user with task notifications on and prayer notifications off. -/
def sampleUser : User :=
  { id := "u1", prayer_region := none, notifications_enabled := true,
    prayer_notifications_enabled := false, blocked_bot := false, blocked_at := none }

/-- Store holding the sample user and task. -/
def sampleDb : Db :=
  { users := [sampleUser], tasks := [sampleTask], prayer_notifications := [] }

/-- Sweep time of the fixtures. -/
def sampleNow : DateTime := ⟨0, 0⟩

/-- Delivery oracle that always raises a transient error. -/
def errTaskDeliver : TaskDeliver := fun _ _ _ => SendResult.err "network timeout"

/-- Prayer delivery oracle that always raises a transient error. -/
def errPrayerDeliver : PrayerDeliver := fun _ _ _ => SendResult.err "network timeout"

/-! The claim theorems. -/

/-- C1: for every configured task threshold (1440, 60, 15, 0 minutes) and
prayer threshold (15, 5 minutes), the send decision fires exactly when the
already-sent state is false and the minutes-until value lies in the
half-open window from threshold minus window size (exclusive) to the
threshold (inclusive), with a 5-minute window for tasks and a 2-minute
window for prayers; in particular a task due in 58 minutes fires the
60-minute threshold and a task due in 54 minutes does not. -/
theorem c1_threshold_window_fires_iff :
    (task_intervals.map IntervalCfg.minutes = [1440, 60, 15, 0]) ∧
    (prayer_intervals.map IntervalCfg.minutes = [15, 5]) ∧
    (∀ (task : Task) (interval : IntervalCfg) (m : Int),
      should_send_task_notification task interval m = true ↔
        (taskNotificationFlag task interval.id = false ∧
         interval.minutes - 5 < m ∧ m ≤ interval.minutes)) ∧
    (∀ (db : Db) (user : User) (prayer : String) (interval : IntervalCfg) (m today : Int),
      should_send_prayer_notification db user prayer interval m today = true ↔
        (prayerNotificationExists db.prayer_notifications user.id today prayer
            interval.id = false ∧
         interval.minutes - 2 < m ∧ m ≤ interval.minutes)) ∧
    (∀ task : Task, taskNotificationFlag task "1hour" = false →
      should_send_task_notification task ⟨"1hour", "1 soat oldin", 60⟩ 58 = true) ∧
    (∀ task : Task,
      should_send_task_notification task ⟨"1hour", "1 soat oldin", 60⟩ 54 = false) := by
  refine ⟨by decide, by decide, should_send_task_iff, should_send_prayer_iff, ?_, ?_⟩
  · intro task h
    exact (should_send_task_iff task ⟨"1hour", "1 soat oldin", 60⟩ 58).2
      ⟨h, by norm_num, by norm_num⟩
  · intro task
    rfl

/-- Witness for C1 at the sample task. -/
theorem c1_threshold_window_fires_iff_witness :
    should_send_task_notification sampleTask ⟨"1hour", "1 soat oldin", 60⟩ 58 = true ∧
    should_send_task_notification sampleTask ⟨"1hour", "1 soat oldin", 60⟩ 54 = false :=
  ⟨c1_threshold_window_fires_iff.2.2.2.2.1 sampleTask (by decide),
   c1_threshold_window_fires_iff.2.2.2.2.2 sampleTask⟩

theorem tdiv_sixty_nonpos (d : Int) (h : d ≤ 0) :
    Int.tdiv d 60 = -(Int.fdiv (-d) 60) := by
  have h' : (0 : Int) ≤ -d := by omega
  have heq : Int.tdiv (-d) 60 = Int.fdiv (-d) 60 := by
    rw [Int.tdiv_eq_ediv h' (by norm_num), Int.fdiv_eq_ediv _ (by norm_num)]
  calc Int.tdiv d 60 = Int.tdiv (-(-d)) 60 := by rw [neg_neg]
    _ = -(Int.tdiv (-d) 60) := Int.neg_tdiv (-d) 60
    _ = -(Int.fdiv (-d) 60) := by rw [heq]

/-- C4 counterexample: an event 90 seconds in the past gives minutes_until
of -1 in the code (truncation toward zero), while the floor of -90/60 is
-2, so minutes_until is not the floor for negative differences. -/
theorem c4_minutes_until_counterexample :
    minutesUntil ⟨0, 0⟩ ⟨0, 90⟩ = -1 ∧
    Int.fdiv (totalSeconds ⟨0, 0⟩ ⟨0, 90⟩) 60 = -2 := by
  decide

/-- C4 amended: minutes_until is int((event_time - now).total_seconds()/60),
which truncates toward zero: it equals the floor for nonnegative
differences, and for nonpositive differences it equals minus the floor of
the negated difference over 60. -/
theorem c4_minutes_until_truncates (e n : DateTime) :
    (0 ≤ totalSeconds e n →
      minutesUntil e n = Int.fdiv (totalSeconds e n) 60) ∧
    (totalSeconds e n ≤ 0 →
      minutesUntil e n = -(Int.fdiv (-(totalSeconds e n)) 60)) := by
  constructor
  · intro h
    unfold minutesUntil
    rw [Int.tdiv_eq_ediv h (by norm_num), Int.fdiv_eq_ediv _ (by norm_num)]
  · intro h
    unfold minutesUntil
    exact tdiv_sixty_nonpos (totalSeconds e n) h

/-- Witness for C4 amended at a difference of 120 seconds. -/
theorem c4_minutes_until_truncates_witness :
    minutesUntil ⟨0, 120⟩ ⟨0, 0⟩ = Int.fdiv (totalSeconds ⟨0, 120⟩ ⟨0, 0⟩) 60 :=
  (c4_minutes_until_truncates ⟨0, 120⟩ ⟨0, 0⟩).1 (by decide)

/-- C5: a sent-flag is persisted, and a prayer record inserted, only after
the delivery call returned successfully; when delivery raises, the task
rows and the prayer-notification rows are unchanged by that step (only the
user may be marked blocked). -/
theorem c5_persist_only_after_delivery_success :
    (∀ (deliver : TaskDeliver) (now : DateTime) (user : User) (interval : IntervalCfg)
       (m : Int) (db : Db) (task : Task) (count : Nat) (msg : String),
      deliver user.id task.id interval.id = SendResult.err msg →
      (taskIntervalStep deliver now user interval m (db, task, count)).1.tasks = db.tasks ∧
      (taskIntervalStep deliver now user interval m (db, task, count)).2.1 = task ∧
      (taskIntervalStep deliver now user interval m (db, task, count)).2.2 = count) ∧
    (∀ (pdeliver : PrayerDeliver) (now : DateTime) (user : User) (prayer : String)
       (interval : IntervalCfg) (m today : Int) (db : Db) (count : Nat) (msg : String),
      pdeliver user.id prayer interval.id = SendResult.err msg →
      (prayerIntervalStep pdeliver now user prayer interval m today
          (db, count)).1.prayer_notifications = db.prayer_notifications ∧
      (prayerIntervalStep pdeliver now user prayer interval m today
          (db, count)).2 = count) := by
  constructor
  · intro deliver now user interval m db task count msg h
    by_cases hs : should_send_task_notification task interval m = true
    · by_cases hb : is_user_blocked_error msg = true
      · simp [taskIntervalStep, hs, h, hb, mark_user_as_blocked]
      · simp only [Bool.not_eq_true] at hb
        simp [taskIntervalStep, hs, h, hb]
    · simp only [Bool.not_eq_true] at hs
      simp [taskIntervalStep, hs]
  · intro pdeliver now user prayer interval m today db count msg h
    by_cases hs :
        should_send_prayer_notification db user prayer interval m today = true
    · by_cases hb : is_user_blocked_error msg = true
      · simp [prayerIntervalStep, hs, h, hb, mark_user_as_blocked]
      · simp only [Bool.not_eq_true] at hb
        simp [prayerIntervalStep, hs, h, hb]
    · simp only [Bool.not_eq_true] at hs
      simp [prayerIntervalStep, hs]

/-- Witness for C5 at the sample fixtures with a failing delivery. -/
theorem c5_persist_only_after_delivery_success_witness :
    (taskIntervalStep errTaskDeliver sampleNow sampleUser ⟨"1hour", "1 soat oldin", 60⟩
        58 (sampleDb, sampleTask, 0)).1.tasks = sampleDb.tasks ∧
    (taskIntervalStep errTaskDeliver sampleNow sampleUser ⟨"1hour", "1 soat oldin", 60⟩
        58 (sampleDb, sampleTask, 0)).2.1 = sampleTask ∧
    (taskIntervalStep errTaskDeliver sampleNow sampleUser ⟨"1hour", "1 soat oldin", 60⟩
        58 (sampleDb, sampleTask, 0)).2.2 = 0 :=
  c5_persist_only_after_delivery_success.1 errTaskDeliver sampleNow sampleUser
    ⟨"1hour", "1 soat oldin", 60⟩ 58 sampleDb sampleTask 0 "network timeout" rfl

/-- C8: start and stop act on the two-state machine: start while running
and stop while idle change nothing, start installs the recurring
notification_check job and marks the service running, stop disposes the
scheduler jobs and marks it idle, and both operations are idempotent. -/
theorem c8_start_stop_idempotent :
    (∀ s : ServiceState, s.is_running = true → ServiceState.start s = s) ∧
    (∀ s : ServiceState, s.is_running = false → ServiceState.stop s = s) ∧
    (∀ s : ServiceState, s.is_running = false →
      ServiceState.start s =
        { scheduler := { jobs := s.scheduler.jobs ++ ["notification_check"],
                         started := true },
          is_running := true }) ∧
    (∀ s : ServiceState, s.is_running = true →
      ServiceState.stop s =
        { scheduler := { jobs := [], started := false }, is_running := false }) ∧
    (∀ s : ServiceState,
      ServiceState.start (ServiceState.start s) = ServiceState.start s) ∧
    (∀ s : ServiceState,
      ServiceState.stop (ServiceState.stop s) = ServiceState.stop s) := by
  refine ⟨?_, ?_, ?_, ?_, ?_, ?_⟩
  · intro s h
    simp [ServiceState.start, h]
  · intro s h
    simp [ServiceState.stop, h]
  · intro s h
    simp [ServiceState.start, h]
  · intro s h
    simp [ServiceState.stop, h]
  · intro s
    by_cases h : s.is_running = true
    · simp [ServiceState.start, h]
    · simp only [Bool.not_eq_true] at h
      simp [ServiceState.start, h]
  · intro s
    by_cases h : s.is_running = true
    · simp [ServiceState.stop, h]
    · simp only [Bool.not_eq_true] at h
      simp [ServiceState.stop, h]

/-- Witness for C8 at the idle initial state. -/
theorem c8_start_stop_idempotent_witness :
    ServiceState.start ⟨⟨[], false⟩, false⟩ =
      { scheduler := { jobs := [] ++ ["notification_check"], started := true },
        is_running := true } ∧
    ServiceState.stop ⟨⟨[], false⟩, false⟩ = ⟨⟨[], false⟩, false⟩ :=
  ⟨c8_start_stop_idempotent.2.2.1 ⟨⟨[], false⟩, false⟩ rfl,
   c8_start_stop_idempotent.2.1 ⟨⟨[], false⟩, false⟩ rfl⟩

/-- C9: the prayer evaluation is skipped with no state change when prayer
notifications are disabled or the user has no region, and a failed or
falsy prayer-times fetch skips the prayer check for this cycle only,
leaving the store unchanged. -/
theorem c9_prayer_check_skips :
    (∀ (pdeliver : PrayerDeliver) (fetch : PrayerFetch) (user : User) (now : DateTime)
       (db : Db), user.prayer_notifications_enabled = false →
      check_prayer_notifications pdeliver fetch user now db = (db, 0)) ∧
    (∀ (pdeliver : PrayerDeliver) (fetch : PrayerFetch) (user : User) (now : DateTime)
       (db : Db), regionFalsy user.prayer_region = true →
      check_prayer_notifications pdeliver fetch user now db = (db, 0)) ∧
    (∀ (pdeliver : PrayerDeliver) (fetch : PrayerFetch) (user : User) (now : DateTime)
       (db : Db), fetch (regionStr user.prayer_region) = none →
      check_prayer_notifications pdeliver fetch user now db = (db, 0)) ∧
    (∀ (pdeliver : PrayerDeliver) (fetch : PrayerFetch) (user : User) (now : DateTime)
       (db : Db), fetch (regionStr user.prayer_region) = some [] →
      check_prayer_notifications pdeliver fetch user now db = (db, 0)) := by
  refine ⟨?_, ?_, ?_, ?_⟩
  · intro pdeliver fetch user now db h
    simp [check_prayer_notifications, h]
  · intro pdeliver fetch user now db h
    simp [check_prayer_notifications, h]
  · intro pdeliver fetch user now db h
    by_cases hg : (!user.prayer_notifications_enabled || regionFalsy user.prayer_region) = true
    · simp [check_prayer_notifications, hg]
    · simp only [Bool.not_eq_true] at hg
      simp [check_prayer_notifications, hg, h]
  · intro pdeliver fetch user now db h
    by_cases hg : (!user.prayer_notifications_enabled || regionFalsy user.prayer_region) = true
    · simp [check_prayer_notifications, hg]
    · simp only [Bool.not_eq_true] at hg
      simp [check_prayer_notifications, hg, h]

/-- Witness for C9 at a user with a region but a failing fetch. -/
theorem c9_prayer_check_skips_witness :
    check_prayer_notifications okPrayerDeliver (fun _ => none)
      { id := "u9", prayer_region := some "Toshkent", notifications_enabled := true,
        prayer_notifications_enabled := true, blocked_bot := false, blocked_at := none }
      sampleNow sampleDb = (sampleDb, 0) :=
  c9_prayer_check_skips.2.2.1 okPrayerDeliver (fun _ => none)
    { id := "u9", prayer_region := some "Toshkent", notifications_enabled := true,
      prayer_notifications_enabled := true, blocked_bot := false, blocked_at := none }
    sampleNow sampleDb rfl

/-- C10: a task whose due timestamp is absent is skipped entirely: its
processing changes nothing and sends nothing, and a store all of whose
tasks lack due dates makes the whole task check a no-op. -/
theorem c10_falsy_due_date_skipped :
    (∀ (deliver : TaskDeliver) (user : User) (now : DateTime) (db : Db) (task : Task),
      task.due_date = none → processTask deliver user now db task = (db, 0)) ∧
    (∀ (deliver : TaskDeliver) (user : User) (now : DateTime) (db : Db),
      (∀ t ∈ db.tasks, t.due_date = none) →
      check_task_notifications deliver user now db = (db, 0)) := by
  constructor
  · intro deliver user now db task h
    simp [processTask, h]
  · intro deliver user now db h
    simp only [check_task_notifications]
    by_cases hg : (!user.notifications_enabled) = true
    · simp [hg]
    · simp only [Bool.not_eq_true] at hg
      simp only [hg, Bool.false_eq_true, if_false]
      apply taskLoop_dead_noop
      intro t ht d hd
      have hnone := h t (List.mem_filter.1 ht).1
      rw [hnone] at hd
      exact absurd hd (by simp)

/-- Witness for C10 at a store holding one task without a due date. -/
theorem c10_falsy_due_date_skipped_witness :
    check_task_notifications okTaskDeliver sampleUser sampleNow
      { users := [sampleUser], tasks := [{ sampleTask with due_date := none }],
        prayer_notifications := [] } =
      ({ users := [sampleUser], tasks := [{ sampleTask with due_date := none }],
         prayer_notifications := [] }, 0) :=
  c10_falsy_due_date_skipped.2 okTaskDeliver sampleUser sampleNow
    { users := [sampleUser], tasks := [{ sampleTask with due_date := none }],
      prayer_notifications := [] }
    (by
      intro t ht
      simp only [List.mem_singleton] at ht
      rw [ht])

/-- C6: evaluation of the code at the failing input. The flag write of
_mark_task_notification_sent never reaches its commit: session.add raises
InvalidRequestError because the task is still attached to the open query
session of the caller, so the store is unchanged and the raised message
is classified as a transient (non-blocked) failure.  Consequently a whole
task sweep with successful deliveries leaves the store identical and
counts nothing, and the same (task, threshold) pair still fires on the
next sweep inside the window: the sent-flag never transitions to true and
the engine double-sends, contradicting the claim. -/
theorem c6_flag_never_persisted :
    (∀ (db : Db) (task : Task) (interval : IntervalCfg),
      (mark_task_notification_sent db task interval).1 = db ∧
      (mark_task_notification_sent db task interval).2.2 = already_attached_error) ∧
    is_user_blocked_error already_attached_error = false ∧
    check_task_notifications okTaskDeliver sampleUser sampleNow sampleDb =
      (sampleDb, 0) ∧
    should_send_task_notification sampleTask ⟨"1hour", "1 soat oldin", 60⟩ 58 =
      true := by
  refine ⟨fun db task interval => ⟨rfl, rfl⟩, ?_, ?_, ?_⟩
  · decide
  · decide
  · decide

/-- C7: an error text containing the blocked indicator phrase is
classified as unreachable; marking a user blocked sets the flag, records
the time and disables both toggles while leaving every other user row
unchanged; and over a whole sweep the blocked flag is one-way and disabled
toggles are never re-enabled. -/
theorem c7_blocked_user_one_way :
    (∀ msg : String,
      strContains (strToLower msg) "bot was blocked by the user" = true →
      is_user_blocked_error msg = true) ∧
    (∀ (db : Db) (now : DateTime) (uid : String) (u : User), u ∈ db.users →
      u.id ≠ uid → u ∈ (mark_user_as_blocked db now uid).users) ∧
    (∀ (db : Db) (now : DateTime) (uid : String) (u : User), u ∈ db.users →
      u.id = uid →
      { u with blocked_bot := true, blocked_at := some now,
               notifications_enabled := false,
               prayer_notifications_enabled := false } ∈
        (mark_user_as_blocked db now uid).users) ∧
    (∀ (deliver : TaskDeliver) (pdeliver : PrayerDeliver) (fetch : PrayerFetch)
       (now : DateTime) (db : Db),
      List.Forall₂ userBlockedLe db.users
        (check_notifications (procUserOk deliver pdeliver fetch now) db).1.users) := by
  refine ⟨?_, ?_, ?_, ?_⟩
  · intro msg h
    simp only [is_user_blocked_error, blocked_indicators, List.any_cons, List.any_nil,
      Bool.or_eq_true]
    exact Or.inl h
  · intro db now uid u hu hne
    refine List.mem_map.2 ⟨u, hu, ?_⟩
    have hb : (u.id == uid) = false := by simp [hne]
    simp [hb]
  · intro db now uid u hu heq
    refine List.mem_map.2 ⟨u, hu, ?_⟩
    have hb : (u.id == uid) = true := by simp [heq]
    simp [hb]
  · intro deliver pdeliver fetch now db
    simp only [check_notifications]
    exact userLoop_ok_usersLe deliver pdeliver fetch now _ db 0

/-- Witness for C7 at a concrete blocked-error message. -/
theorem c7_blocked_user_one_way_witness :
    is_user_blocked_error "Forbidden: bot was blocked by the user" = true :=
  c7_blocked_user_one_way.1 "Forbidden: bot was blocked by the user" (by decide)

/-! Fixtures for the C2 scenario: a user with task and prayer
notifications active, one deliverable task whose delivery fails with a
blocked-user error, and a prayer reminder due in the same cycle. -/

/-- Sweep time of the C2 and C3 scenarios, 04:46. -/
def c2Now : DateTime := ⟨0, 17160⟩

/-- The C2 user with both notification kinds enabled and a region. -/
def c2User : User :=
  { id := "u2", prayer_region := some "Toshkent", notifications_enabled := true,
    prayer_notifications_enabled := true, blocked_bot := false, blocked_at := none }

/-- The C2 task, due 58 minutes after the sweep time. -/
def c2Task : Task :=
  { id := 21, user_id := "u2", completed := false, due_date := some ⟨0, 20640⟩,
    notification_1day_sent := false, notification_1hour_sent := false,
    notification_15min_sent := false, notification_due_sent := false }

/-- Task delivery fails with a blocked-user error. -/
def c2Deliver : TaskDeliver := fun _ _ _ =>
  SendResult.err "Forbidden: bot was blocked by the user"

/-- The prayer-time fetch of the scenario: Fajr at 05:00, 14 minutes
after the sweep time, inside the 15-minute window. -/
def c2Fetch : PrayerFetch := fun _ => some [("Fajr", "05:00")]

/-- The C2 store. -/
def c2Db : Db :=
  { users := [c2User], tasks := [c2Task], prayer_notifications := [] }

/-- C2 counterexample: the task delivery fails with a blocked-classified
error and the engine marks the user unreachable, yet it does not stop
processing that user this cycle: the prayer check still runs for the same
user, delivers the Fajr reminder, inserts its record and counts one
notification, where stopping would have left the record list empty and
the counter 0. -/
theorem c2_counterexample :
    is_user_blocked_error "Forbidden: bot was blocked by the user" = true ∧
    (processUser c2Deliver okPrayerDeliver c2Fetch c2Now c2User c2Db).1.users.map
        User.blocked_bot = [true] ∧
    (processUser c2Deliver okPrayerDeliver c2Fetch c2Now c2User
        c2Db).1.prayer_notifications = [⟨"u2", 0, "Fajr", "15min"⟩] ∧
    (processUser c2Deliver okPrayerDeliver c2Fetch c2Now c2User c2Db).2 = 1 := by
  decide

/-- Delivery oracle that always raises a blocked-user error. -/
def blockedTaskDeliver : TaskDeliver := fun _ _ _ =>
  SendResult.err "bot was blocked by the user"

/-- C2 amended: on a delivery failure classified as unreachable the engine
marks the user unreachable but continues: the step hands the unchanged
task and counter back to the loops, which go on with the remaining
thresholds, tasks and the prayer check of the same cycle, and in the
concrete scenario the prayer reminder of the same user is still delivered
and recorded after the blocked-classified task failure. -/
theorem c2_blocked_marks_and_continues :
    (∀ (deliver : TaskDeliver) (now : DateTime) (user : User) (interval : IntervalCfg)
       (m : Int) (db : Db) (task : Task) (count : Nat) (msg : String),
      should_send_task_notification task interval m = true →
      deliver user.id task.id interval.id = SendResult.err msg →
      is_user_blocked_error msg = true →
      taskIntervalStep deliver now user interval m (db, task, count) =
        (mark_user_as_blocked db now user.id, task, count)) ∧
    ((processUser c2Deliver okPrayerDeliver c2Fetch c2Now c2User
        c2Db).1.prayer_notifications = [⟨"u2", 0, "Fajr", "15min"⟩] ∧
     (processUser c2Deliver okPrayerDeliver c2Fetch c2Now c2User c2Db).2 = 1) := by
  constructor
  · intro deliver now user interval m db task count msg hs hd hb
    simp [taskIntervalStep, hs, hd, hb]
  · constructor
    · decide
    · decide

/-- Witness for the amended C2 at the sample fixtures. -/
theorem c2_blocked_marks_and_continues_witness :
    taskIntervalStep blockedTaskDeliver sampleNow sampleUser
        ⟨"1hour", "1 soat oldin", 60⟩ 58 (sampleDb, sampleTask, 0) =
      (mark_user_as_blocked sampleDb sampleNow sampleUser.id, sampleTask, 0) :=
  c2_blocked_marks_and_continues.1 blockedTaskDeliver sampleNow sampleUser
    ⟨"1hour", "1 soat oldin", 60⟩ 58 sampleDb sampleTask 0
    "bot was blocked by the user" (by decide) rfl (by decide)

/-! Fixtures for the C3 scenario: two active users, an unexpected
exception while processing the first, a prayer reminder due for the
second. -/

/-- First C3 user. -/
def c3UserA : User :=
  { id := "a", prayer_region := none, notifications_enabled := true,
    prayer_notifications_enabled := false, blocked_bot := false, blocked_at := none }

/-- Second C3 user, with prayer notifications enabled and a region. -/
def c3UserB : User :=
  { id := "b", prayer_region := some "Toshkent", notifications_enabled := true,
    prayer_notifications_enabled := true, blocked_bot := false, blocked_at := none }

/-- The C3 store. -/
def c3Db : Db :=
  { users := [c3UserA, c3UserB], tasks := [], prayer_notifications := [] }

/-- Fault oracle raising only while the first user is processed. -/
def c3Fault : String → Option String := fun uid =>
  if uid == "a" then some "database connection lost" else none

/-- The prayer-time fetch of the scenario: Fajr at 05:00, 14 minutes
after the sweep time. -/
def c3Fetch : PrayerFetch := fun _ => some [("Fajr", "05:00")]

/-- C3 counterexample: an unexpected exception while processing the first
user is logged at the sweep boundary, but it ends the loop: the sweep
returns with the store unchanged and nothing sent, although processing
the second user directly would deliver the Fajr reminder and insert its
record, so the remaining users are aborted rather than isolated. -/
theorem c3_counterexample :
    check_notifications
        (procUserFault c3Fault okTaskDeliver okPrayerDeliver c3Fetch c2Now) c3Db =
      (c3Db, 0, some "database connection lost") ∧
    (processUser okTaskDeliver okPrayerDeliver c3Fetch c2Now c3UserB
        c3Db).1.prayer_notifications = [⟨"b", 0, "Fajr", "15min"⟩] ∧
    (processUser okTaskDeliver okPrayerDeliver c3Fetch c2Now c3UserB c3Db).2 = 1 := by
  decide

/-- C3 amended: the sweep never propagates an exception past its boundary
(the outer handler turns it into a logged message), but per-user isolation
does not hold: an unexpected exception while one user is processed ends
the loop and the users after it are skipped for that sweep. -/
theorem c3_sweep_traps_but_aborts :
    (∀ (procUser : User → Db → Except String (Db × Nat)) (db : Db) (u : User)
       (rest : List User) (e : String),
      db.users.filter (fun x => !x.blocked_bot) = u :: rest →
      procUser u db = Except.error e →
      check_notifications procUser db = (db, 0, some e)) ∧
    (∀ (procUser : User → Db → Except String (Db × Nat)) (u : User)
       (rest : List User) (db db₁ : Db) (total n : Nat),
      procUser u db = Except.ok (db₁, n) →
      userLoop procUser (u :: rest) (db, total) =
        userLoop procUser rest (db₁, total + n)) := by
  constructor
  · intro procUser db u rest e hf he
    simp only [check_notifications, hf, userLoop, he]
  · intro procUser u rest db db₁ total n h
    simp only [userLoop, h]

/-- Witness for the amended C3: an error on the only active user ends the
sweep with the logged message and an unchanged store. -/
theorem c3_sweep_traps_but_aborts_witness :
    check_notifications (fun _ _ => Except.error "boom") sampleDb =
      (sampleDb, 0, some "boom") :=
  c3_sweep_traps_but_aborts.1 (fun _ _ => Except.error "boom") sampleDb sampleUser []
    "boom" (by decide) rfl

end NotifBot
